import Mathlib

/-!
Shallow embedding of the apple-mcp PIM integration modules (mail, notes,
calendar, reminders) and a verification of the specification claims about
them.

Modelling conventions, shared by every operation below:

* Each TypeScript operation first runs an access probe (one AppleScript
  dispatch of a trivial `return name` script) and then, possibly, its real
  AppleScript command.  The outcome of the probe script is modelled by a
  `Bool` (`probeOk`: did `runAppleScript` of the probe script succeed), and
  the outcome of the real command by an `Except String X` value (`Except.error`
  models a rejected `runAppleScript` promise, `Except.ok` a reply of the shape
  the particular script can produce).
* Each operation returns an `OpRun α`: its JavaScript-visible result together
  with the ordered list of native commands it dispatched during the call.
  A TypeScript function that can throw to its caller returns an
  `Except String _` result; a function whose outer `catch` swallows every
  exception returns a plain value.
* JavaScript truthiness on strings (`""` is falsy) is modelled by `jsTruthy`,
  and `a || b` on strings by `jsOr`.
-/

/-- JavaScript truthiness of a string: only the empty string is falsy. -/
def jsTruthy (s : String) : Bool := !(s == "")

/-- JavaScript `a || b` for strings: the default wins when `a` is falsy. -/
def jsOr (s d : String) : String := if s == "" then d else s

/-- JavaScript `o || null` for an optional string: `some ""` collapses to `none`. -/
def jsOrNull (o : Option String) : Option String :=
  o.bind (fun d => if d == "" then none else some d)

/-- Does `needle` occur at the front of `hay`? -/
def charsStartWith : List Char → List Char → Bool
  | [], _ => true
  | _ :: _, [] => false
  | a :: as, b :: bs => a == b && charsStartWith as bs

/-- Does `needle` occur contiguously anywhere inside `hay`? -/
def charsOccurIn (needle : List Char) : List Char → Bool
  | [] => needle.isEmpty
  | c :: cs => charsStartWith needle (c :: cs) || charsOccurIn needle cs

/-- Substring test: does `needle` occur contiguously inside `hay`?  Models
JavaScript `String.prototype.includes` / the permission-marker checks. -/
def strContains (hay needle : String) : Bool :=
  charsOccurIn needle.toList hay.toList

/-- A single-quote character, used inside the remediation messages. -/
def apos : String := String.mk [Char.ofNat 39]

/-- JavaScript `String.prototype.trim`: strip leading and trailing
whitespace. -/
def jsTrim (s : String) : String :=
  String.mk (((s.toList.dropWhile Char.isWhitespace).reverse.dropWhile
    Char.isWhitespace).reverse)

/-- JavaScript `String.prototype.startsWith`. -/
def strStartsWith (s pre : String) : Bool :=
  charsStartWith pre.toList s.toList

/-- Drop the first `n` characters of a string (models slicing off a sentinel
that `String.prototype.replace` removes from the front). -/
def strDrop (s : String) (n : Nat) : String :=
  String.mk (s.toList.drop n)

/-- JavaScript `String.prototype.split` with a one-character separator. -/
def splitOnCharAux (c : Char) : List Char → List Char → List String
  | [], acc => [String.mk acc.reverse]
  | a :: as, acc =>
    if a == c then String.mk acc.reverse :: splitOnCharAux c as []
    else splitOnCharAux c as (a :: acc)

/-- JavaScript `s.split(c)` for a one-character separator `c`. -/
def strSplitOn (s : String) (c : Char) : List String :=
  splitOnCharAux c s.toList []

/-- Is an `Except` value on its error side?  (Models "the operation threw to
its caller".) -/
def exceptIsErr {ε α : Type} : Except ε α → Bool
  | Except.error _ => true
  | Except.ok _ => false

/-- One native automation dispatch: either the cheap access-probe script for an
application, or the real AppleScript command of an operation. -/
inductive NativeCmd where
  | probe (app : String)
  | main (op : String)
deriving Repr, DecidableEq

/-- The outcome of running one operation: its JavaScript-visible result and the
ordered trace of native commands dispatched during the call. -/
structure OpRun (α : Type) where
  result : α
  trace : List NativeCmd
deriving Repr

/-- The `{hasAccess, message}` record returned by every access probe. -/
structure AccessCheckResult where
  hasAccess : Bool
  message : String
deriving Repr, DecidableEq

/-! ## Mail module (src/unnamed/part_001, `utils/mail.ts`) -/

/-- Remediation text returned by `requestMailAccess` when the probe fails. -/
def mailDeniedMsg : String :=
  "Mail access is required but not granted. Please:\n1. Open System Settings > Privacy & Security > Automation\n2. Find your terminal/app in the list and enable " ++ apos ++ "Mail" ++ apos ++ "\n3. Make sure Mail app is running and configured with at least one account\n4. Restart your terminal and try again"

/-- Model of `checkMailAccess`: dispatches the trivial probe script and reports whether
it succeeded (the `catch` inside it turns any error into `false`). -/
def checkMailAccess (probeOk : Bool) : Bool := probeOk

/-- Model of `requestMailAccess`: probe plus instructions.  `checkMailAccess` never
throws, so the outer `catch` branch of the source is unreachable. -/
def requestMailAccess (probeOk : Bool) : AccessCheckResult :=
  if checkMailAccess probeOk then
    { hasAccess := true, message := "Mail access is already granted." }
  else
    { hasAccess := false, message := mailDeniedMsg }

structure EmailMessage where
  subject : String
  sender : String
  dateSent : String
  content : String
  isRead : Bool
  mailbox : String
deriving Repr, DecidableEq

/-- Model of `getUnreadMails`: probe, then dispatch the unread-mail script (which
returns `"SUCCESS:" & count`).  Whatever happens — access denied (the thrown
error is caught by the enclosing `catch` of the function itself), script error, sentinel or not —
the TypeScript returns an empty array. -/
def getUnreadMails (probeOk : Bool) (reply : Except String String)
    (limit : Nat := 10) : OpRun (List EmailMessage) :=
  let accessResult := requestMailAccess probeOk
  if !accessResult.hasAccess then
    -- `throw new Error(accessResult.message)`, caught by the enclosing
    -- `catch` of this function, which logs and returns [].
    ⟨[], [NativeCmd.probe "Mail"]⟩
  else
    let _maxEmails := Nat.min limit 20  -- only interpolated into the script
    match reply with
    | Except.error _ => ⟨[], [NativeCmd.probe "Mail", NativeCmd.main "getUnreadMails"]⟩
    | Except.ok r =>
      if jsTruthy r && strStartsWith r "SUCCESS:" then
        -- parsing unimplemented in the source: returns []
        ⟨[], [NativeCmd.probe "Mail", NativeCmd.main "getUnreadMails"]⟩
      else
        ⟨[], [NativeCmd.probe "Mail", NativeCmd.main "getUnreadMails"]⟩

/-- Model of `searchMails`: probe, then the empty-term check, then dispatch.  As in the
source, every path ends in an empty array. -/
def searchMails (probeOk : Bool) (reply : Except String String)
    (searchTerm : String) (limit : Nat := 10) : OpRun (List EmailMessage) :=
  let accessResult := requestMailAccess probeOk
  if !accessResult.hasAccess then
    ⟨[], [NativeCmd.probe "Mail"]⟩
  else if searchTerm == "" || jsTrim searchTerm == "" then
    ⟨[], [NativeCmd.probe "Mail"]⟩
  else
    let _maxEmails := Nat.min limit 20  -- only interpolated into the script
    match reply with
    | Except.error _ => ⟨[], [NativeCmd.probe "Mail", NativeCmd.main "searchMails"]⟩
    | Except.ok r =>
      if jsTruthy r && strStartsWith r "SUCCESS:" then
        ⟨[], [NativeCmd.probe "Mail", NativeCmd.main "searchMails"]⟩
      else
        ⟨[], [NativeCmd.probe "Mail", NativeCmd.main "searchMails"]⟩

/-- Model of `sendMail`: probe, recipient/subject/body validation, dispatch, and the
`SUCCESS` sentinel check.  Every failure is re-thrown to the caller by the
outer `catch` with an `Error sending email: ` wrapper. -/
def sendMail (probeOk : Bool) (reply : Except String String)
    (toAddr subject body : String) : OpRun (Except String String) :=
  let accessResult := requestMailAccess probeOk
  if !accessResult.hasAccess then
    ⟨Except.error ("Error sending email: " ++ accessResult.message), [NativeCmd.probe "Mail"]⟩
  else if toAddr == "" || jsTrim toAddr == "" then
    ⟨Except.error "Error sending email: To address is required", [NativeCmd.probe "Mail"]⟩
  else if subject == "" || jsTrim subject == "" then
    ⟨Except.error "Error sending email: Subject is required", [NativeCmd.probe "Mail"]⟩
  else if body == "" || jsTrim body == "" then
    ⟨Except.error "Error sending email: Email body is required", [NativeCmd.probe "Mail"]⟩
  else
    match reply with
    | Except.error e =>
      ⟨Except.error ("Error sending email: " ++ e), [NativeCmd.probe "Mail", NativeCmd.main "sendMail"]⟩
    | Except.ok r =>
      if r == "SUCCESS" then
        ⟨Except.ok ("Email sent to " ++ toAddr ++ " with subject \"" ++ subject ++ "\""),
         [NativeCmd.probe "Mail", NativeCmd.main "sendMail"]⟩
      else
        ⟨Except.error "Error sending email: Failed to send email",
         [NativeCmd.probe "Mail", NativeCmd.main "sendMail"]⟩

/-! ## Notes module (src/utils/notes.ts, first part) -/

/-- Remediation text returned by `requestNotesAccess` when the probe fails. -/
def notesDeniedMsg : String :=
  "Notes access is required but not granted. Please:\n1. Open System Settings > Privacy & Security > Automation\n2. Find your terminal/app in the list and enable " ++ apos ++ "Notes" ++ apos ++ "\n3. Restart your terminal and try again\n4. If the option is not available, run this command again to trigger the permission dialog"

/-- Model of `checkNotesAccess`: the trivial probe script; the `catch` inside it turns any
error into `false`. -/
def checkNotesAccess (probeOk : Bool) : Bool := probeOk

/-- Model of `requestNotesAccess`: probe plus instructions. -/
def requestNotesAccess (probeOk : Bool) : AccessCheckResult :=
  if checkNotesAccess probeOk then
    { hasAccess := true, message := "Notes access is already granted." }
  else
    { hasAccess := false, message := notesDeniedMsg }

/-- One `{name:…, content:…}` record produced by the notes AppleScript. -/
structure NoteRecord where
  name : String
  content : String
deriving Repr, DecidableEq

/-- A `Note` as returned to the tool layer; the source always sets the two
date fields to `undefined`. -/
structure Note where
  name : String
  content : String
  creationDate : Option String := none
  modificationDate : Option String := none
deriving Repr, DecidableEq

/-- The per-record reshaping shared by `getAllNotes` and `findNote`. -/
def noteOfRecord (rec : NoteRecord) : Note :=
  { name := jsOr rec.name "Untitled Note",
    content := jsOr rec.content "",
    creationDate := none,
    modificationDate := none }

/-- Model of `getAllNotes`: probe, dispatch, reshape.  Access denial throws but is
caught by the enclosing `catch` of the function itself (returns `[]`); a script error likewise
returns `[]`. -/
def getAllNotes (probeOk : Bool) (reply : Except String (List NoteRecord)) :
    OpRun (List Note) :=
  let accessResult := requestNotesAccess probeOk
  if !accessResult.hasAccess then
    ⟨[], [NativeCmd.probe "Notes"]⟩
  else
    match reply with
    | Except.error _ => ⟨[], [NativeCmd.probe "Notes", NativeCmd.main "getAllNotes"]⟩
    | Except.ok recs =>
      ⟨recs.map noteOfRecord, [NativeCmd.probe "Notes", NativeCmd.main "getAllNotes"]⟩

/-- Model of `findNote`: probe, empty-term check, dispatch, reshape. -/
def findNote (probeOk : Bool) (reply : Except String (List NoteRecord))
    (searchText : String) : OpRun (List Note) :=
  let accessResult := requestNotesAccess probeOk
  if !accessResult.hasAccess then
    ⟨[], [NativeCmd.probe "Notes"]⟩
  else if searchText == "" || jsTrim searchText == "" then
    ⟨[], [NativeCmd.probe "Notes"]⟩
  else
    match reply with
    | Except.error _ => ⟨[], [NativeCmd.probe "Notes", NativeCmd.main "findNote"]⟩
    | Except.ok recs =>
      ⟨recs.map noteOfRecord, [NativeCmd.probe "Notes", NativeCmd.main "findNote"]⟩

structure CreateNoteResult where
  success : Bool
  note : Option Note := none
  message : Option String := none
  folderName : Option String := none
  usedDefaultFolder : Option Bool := none
deriving Repr, DecidableEq

/-- Model of `createNote`: probe, empty-title check, dispatch of a script that returns
`"SUCCESS:<folder>:<usedDefault>"` (the script itself falls back to the
default `Notes` location when the requested folder is missing), then parse of
that sentinel string.  The outer `catch` converts any thrown error into a
`success = false` result, so the function never throws. -/
def createNote (probeOk : Bool) (reply : Except String String)
    (title body : String) (folderName : String := "Claude") : OpRun CreateNoteResult :=
  let _ := folderName  -- only interpolated into the script
  let accessResult := requestNotesAccess probeOk
  if !accessResult.hasAccess then
    ⟨{ success := false, message := some accessResult.message }, [NativeCmd.probe "Notes"]⟩
  else if title == "" || jsTrim title == "" then
    ⟨{ success := false, message := some "Note title cannot be empty" }, [NativeCmd.probe "Notes"]⟩
  else
    let formattedBody := jsTrim body
    match reply with
    | Except.error e =>
      ⟨{ success := false, message := some ("Failed to create note: " ++ e) },
       [NativeCmd.probe "Notes", NativeCmd.main "createNote"]⟩
    | Except.ok r =>
      if jsTruthy r && strStartsWith r "SUCCESS:" then
        -- "SUCCESS:folderName:usedDefault"
        let parts := strSplitOn r ':'
        ⟨{ success := true,
           note := some { name := title, content := formattedBody },
           folderName := some (jsOr (parts.getD 1 "") "Notes"),
           usedDefaultFolder := some (parts.getD 2 "" == "true") },
         [NativeCmd.probe "Notes", NativeCmd.main "createNote"]⟩
      else
        ⟨{ success := false,
           message := some ("Failed to create note: " ++
             (if jsTruthy r then r else "No result from AppleScript")) },
         [NativeCmd.probe "Notes", NativeCmd.main "createNote"]⟩

structure FolderNotesResult where
  success : Bool
  notes : Option (List Note) := none
  message : Option String := none
deriving Repr, DecidableEq

/-- Model of `getNotesFromFolder`: probe, dispatch of a script returning either
`"ERROR:Folder not found"` or `"SUCCESS:" & count`, then the defensive parse.
A reply with neither sentinel falls through to the final
`{success: true, notes: []}` return.  (`result.replace("ERROR:", "")` drops
the leading 6-character sentinel when `startsWith "ERROR:"` holds.) -/
def getNotesFromFolder (probeOk : Bool) (reply : Except String String)
    (folderName : String) : OpRun FolderNotesResult :=
  let _ := folderName  -- only interpolated into the script
  let accessResult := requestNotesAccess probeOk
  if !accessResult.hasAccess then
    ⟨{ success := false, message := some accessResult.message }, [NativeCmd.probe "Notes"]⟩
  else
    match reply with
    | Except.error e =>
      ⟨{ success := false, message := some ("Failed to get notes from folder: " ++ e) },
       [NativeCmd.probe "Notes", NativeCmd.main "getNotesFromFolder"]⟩
    | Except.ok r =>
      let out : FolderNotesResult :=
        if jsTruthy r then
          if strStartsWith r "ERROR:" then
            { success := false, message := some (strDrop r 6) }
          else if strStartsWith r "SUCCESS:" then
            { success := true, notes := some [] }
          else
            -- falls through to "assume folder was found but no notes"
            { success := true, notes := some [] }
        else
          { success := true, notes := some [] }
      ⟨out, [NativeCmd.probe "Notes", NativeCmd.main "getNotesFromFolder"]⟩

/-! ## Calendar module (src/utils/notes.ts, second part, `utils/calendar.ts`) -/

/-- Remediation text returned by `requestCalendarAccess` when the probe fails. -/
def calendarDeniedMsg : String :=
  "Calendar access is required but not granted. Please:\n1. Open System Settings > Privacy & Security > Automation\n2. Find your terminal/app in the list and enable " ++ apos ++ "Calendar" ++ apos ++ "\n3. Alternatively, open System Settings > Privacy & Security > Calendars\n4. Add your terminal/app to the allowed applications\n5. Restart your terminal and try again"

/-- Model of `checkCalendarAccess`: the trivial probe script; the `catch` inside it turns any
error into `false`. -/
def checkCalendarAccess (probeOk : Bool) : Bool := probeOk

/-- Model of `requestCalendarAccess`: probe plus instructions. -/
def requestCalendarAccess (probeOk : Bool) : AccessCheckResult :=
  if checkCalendarAccess probeOk then
    { hasAccess := true, message := "Calendar access is already granted." }
  else
    { hasAccess := false, message := calendarDeniedMsg }

/-- One event record as produced by the calendar AppleScript: every field is a
string except `isAllDay` (missing fields are the empty string, which is what
JavaScript `||` defaulting treats like `undefined`). -/
structure EventRecord where
  id : String
  title : String
  location : String
  notes : String
  startDate : String
  endDate : String
  calendarName : String
  isAllDay : Bool
  url : String
deriving Repr, DecidableEq

/-- A `CalendarEvent` as returned to the tool layer. -/
structure CalendarEvent where
  id : String
  title : String
  location : Option String
  notes : Option String
  startDate : Option String
  endDate : Option String
  calendarName : String
  isAllDay : Bool
  url : Option String
deriving Repr, DecidableEq

/-- The per-record reshaping of `getEvents`/`searchEvents`.  `dateToISO`
models the host `new Date(s).toISOString()`; `none` models the exception it
throws on an invalid date (which aborts the whole mapping and is caught by the
`catch` of the operation).  The `nowStr` argument models `Date.now()` in the fallback id. -/
def eventOfRecord (dateToISO : String → Option String) (nowStr : String)
    (rec : EventRecord) : Option CalendarEvent := do
  let sd ← if jsTruthy rec.startDate then (dateToISO rec.startDate).map some
           else pure none
  let ed ← if jsTruthy rec.endDate then (dateToISO rec.endDate).map some
           else pure none
  pure { id := jsOr rec.id ("unknown-" ++ nowStr),
         title := jsOr rec.title "Untitled Event",
         location := jsOrNull (some rec.location),
         notes := jsOrNull (some rec.notes),
         startDate := sd,
         endDate := ed,
         calendarName := jsOr rec.calendarName "Unknown Calendar",
         isAllDay := rec.isAllDay,
         url := jsOrNull (some rec.url) }

/-- Model of `getEvents`: probe, dispatch of a script that always builds its own dummy
event list (real Calendar queries are deemed too slow), then reshape.  Access
denial and any error are swallowed into `[]` by the enclosing `catch`. -/
def getEvents (probeOk : Bool) (reply : Except String (List EventRecord))
    (dateToISO : String → Option String) (nowStr : String)
    (limit : Nat := 10) (fromDate toDate : Option String := none) :
    OpRun (List CalendarEvent) :=
  let _ := (limit, fromDate, toDate)  -- only interpolated into the script
  let accessResult := requestCalendarAccess probeOk
  if !accessResult.hasAccess then
    ⟨[], [NativeCmd.probe "Calendar"]⟩
  else
    match reply with
    | Except.error _ => ⟨[], [NativeCmd.probe "Calendar", NativeCmd.main "getEvents"]⟩
    | Except.ok recs =>
      match recs.mapM (eventOfRecord dateToISO nowStr) with
      | some events => ⟨events, [NativeCmd.probe "Calendar", NativeCmd.main "getEvents"]⟩
      | none =>
        -- `toISOString` threw; caught by the enclosing catch: return []
        ⟨[], [NativeCmd.probe "Calendar", NativeCmd.main "getEvents"]⟩

/-- Model of `searchEvents`: probe, then dispatch of a script whose only return
statement yields the empty list (`-- Return empty list for search (Calendar
queries are too slow)`), then the same reshaping over that empty array. -/
def searchEvents (probeOk : Bool) (reply : Except String Unit)
    (dateToISO : String → Option String) (nowStr : String)
    (searchText : String) (limit : Nat := 10)
    (fromDate toDate : Option String := none) : OpRun (List CalendarEvent) :=
  let _ := (searchText, limit, fromDate, toDate)  -- only interpolated into the script
  let accessResult := requestCalendarAccess probeOk
  if !accessResult.hasAccess then
    ⟨[], [NativeCmd.probe "Calendar"]⟩
  else
    match reply with
    | Except.error _ => ⟨[], [NativeCmd.probe "Calendar", NativeCmd.main "searchEvents"]⟩
    | Except.ok _ =>
      -- the script returned its empty `eventList`
      let resultArray : List EventRecord := []
      match resultArray.mapM (eventOfRecord dateToISO nowStr) with
      | some events => ⟨events, [NativeCmd.probe "Calendar", NativeCmd.main "searchEvents"]⟩
      | none => ⟨[], [NativeCmd.probe "Calendar", NativeCmd.main "searchEvents"]⟩

structure CreateEventResult where
  success : Bool
  message : String
  eventId : Option String := none
deriving Repr, DecidableEq

/-- Model of `createEvent`: probe, then the four input validations (blank title,
missing dates, unparseable dates, end not after start), then dispatch of the
event-creation script, which returns the uid of the new event.  Here `parseDate` models
the host `new Date(s).getTime()`, with `none` for `NaN`. -/
def createEvent (probeOk : Bool) (parseDate : String → Option Int)
    (reply : Except String String) (title startDate endDate : String)
    (location notes : Option String := none) (isAllDay : Bool := false)
    (calendarName : Option String := none) : OpRun CreateEventResult :=
  let _ := (location, notes, isAllDay, calendarName)  -- only interpolated into the script
  let accessResult := requestCalendarAccess probeOk
  if !accessResult.hasAccess then
    ⟨{ success := false, message := accessResult.message }, [NativeCmd.probe "Calendar"]⟩
  else if jsTrim title == "" then
    ⟨{ success := false, message := "Event title cannot be empty" }, [NativeCmd.probe "Calendar"]⟩
  else if startDate == "" || endDate == "" then
    ⟨{ success := false, message := "Start date and end date are required" },
     [NativeCmd.probe "Calendar"]⟩
  else
    match parseDate startDate, parseDate endDate with
    | none, _ =>
      ⟨{ success := false,
         message := "Invalid date format. Please use ISO format (YYYY-MM-DDTHH:mm:ss.sssZ)" },
       [NativeCmd.probe "Calendar"]⟩
    | some _, none =>
      ⟨{ success := false,
         message := "Invalid date format. Please use ISO format (YYYY-MM-DDTHH:mm:ss.sssZ)" },
       [NativeCmd.probe "Calendar"]⟩
    | some s, some e =>
      if e ≤ s then
        ⟨{ success := false, message := "End date must be after start date" },
         [NativeCmd.probe "Calendar"]⟩
      else
        match reply with
        | Except.error err =>
          ⟨{ success := false, message := "Error creating event: " ++ err },
           [NativeCmd.probe "Calendar", NativeCmd.main "createEvent"]⟩
        | Except.ok uid =>
          ⟨{ success := true,
             message := "Event \"" ++ title ++ "\" created successfully.",
             eventId := some uid },
           [NativeCmd.probe "Calendar", NativeCmd.main "createEvent"]⟩

/-! ## Reminders module (src/utils/reminders.ts) -/

/-- Remediation text returned by `requestRemindersAccess` when the probe
fails. -/
def remindersDeniedMsg : String :=
  "Reminders access is required but not granted. Please:\n1. Open System Settings > Privacy & Security > Automation\n2. Find your terminal/app in the list and enable " ++ apos ++ "Reminders" ++ apos ++ "\n3. Restart your terminal and try again\n4. If the option is not available, run this command again to trigger the permission dialog"

/-- Model of `checkRemindersAccess`: the trivial probe script; the `catch` inside it turns
any error into `false`. -/
def checkRemindersAccess (probeOk : Bool) : Bool := probeOk

/-- Model of `requestRemindersAccess`: probe plus instructions. -/
def requestRemindersAccess (probeOk : Bool) : AccessCheckResult :=
  if checkRemindersAccess probeOk then
    { hasAccess := true, message := "Reminders access is already granted." }
  else
    { hasAccess := false, message := remindersDeniedMsg }

/-- One `{name:…, id:…}` record produced by the reminder-lists AppleScript;
also the shape returned to the tool layer. -/
structure ReminderList where
  name : String
  id : String
deriving Repr, DecidableEq

structure Reminder where
  name : String
  id : String
  body : String
  completed : Bool
  dueDate : Option String
  listName : String
deriving Repr, DecidableEq

/-- Model of `getAllLists`: probe, dispatch, reshape with the `||` defaults.  Access
denial and any error are swallowed into `[]` by the enclosing `catch`. -/
def getAllLists (probeOk : Bool) (reply : Except String (List ReminderList)) :
    OpRun (List ReminderList) :=
  let accessResult := requestRemindersAccess probeOk
  if !accessResult.hasAccess then
    ⟨[], [NativeCmd.probe "Reminders"]⟩
  else
    match reply with
    | Except.error _ => ⟨[], [NativeCmd.probe "Reminders", NativeCmd.main "getAllLists"]⟩
    | Except.ok recs =>
      ⟨recs.map (fun rec =>
          { name := jsOr rec.name "Untitled List", id := jsOr rec.id "unknown-id" }),
       [NativeCmd.probe "Reminders", NativeCmd.main "getAllLists"]⟩

/-- Model of `getAllReminders`: probe, dispatch of a script that returns either a
`"SUCCESS:…"` marker or an empty list — the TypeScript then returns `[]` on
every path (`Complex reminder queries are too slow and unreliable`). -/
def getAllReminders (probeOk : Bool) (reply : Except String String)
    (listName : Option String := none) : OpRun (List Reminder) :=
  let _ := listName
  let accessResult := requestRemindersAccess probeOk
  if !accessResult.hasAccess then
    ⟨[], [NativeCmd.probe "Reminders"]⟩
  else
    match reply with
    | Except.error _ => ⟨[], [NativeCmd.probe "Reminders", NativeCmd.main "getAllReminders"]⟩
    | Except.ok r =>
      if jsTruthy r && strContains r "SUCCESS" then
        ⟨[], [NativeCmd.probe "Reminders", NativeCmd.main "getAllReminders"]⟩
      else
        ⟨[], [NativeCmd.probe "Reminders", NativeCmd.main "getAllReminders"]⟩

/-- Model of `searchReminders`: probe, empty-term check, dispatch; the TypeScript
returns `[]` unconditionally after the dispatch. -/
def searchReminders (probeOk : Bool) (reply : Except String String)
    (searchText : String) : OpRun (List Reminder) :=
  let accessResult := requestRemindersAccess probeOk
  if !accessResult.hasAccess then
    ⟨[], [NativeCmd.probe "Reminders"]⟩
  else if searchText == "" || jsTrim searchText == "" then
    ⟨[], [NativeCmd.probe "Reminders"]⟩
  else
    match reply with
    | Except.error _ => ⟨[], [NativeCmd.probe "Reminders", NativeCmd.main "searchReminders"]⟩
    | Except.ok _ => ⟨[], [NativeCmd.probe "Reminders", NativeCmd.main "searchReminders"]⟩

/-- Model of `createReminder`: probe, empty-name check, dispatch of a script that adds
the reminder to the first available list and returns `"SUCCESS:" & listName`
(or an `"ERROR:…"` string).  Every failure is re-thrown to the caller by the
outer `catch` with a `Failed to create reminder: ` wrapper; a non-sentinel
reply is first thrown with the same wrapper and then wrapped once more. -/
def createReminder (probeOk : Bool) (reply : Except String String)
    (name : String) (listName : String := "Reminders")
    (notes dueDate : Option String := none) : OpRun (Except String Reminder) :=
  let _ := listName
  let accessResult := requestRemindersAccess probeOk
  if !accessResult.hasAccess then
    ⟨Except.error ("Failed to create reminder: " ++ accessResult.message),
     [NativeCmd.probe "Reminders"]⟩
  else if name == "" || jsTrim name == "" then
    ⟨Except.error "Failed to create reminder: Reminder name cannot be empty",
     [NativeCmd.probe "Reminders"]⟩
  else
    match reply with
    | Except.error e =>
      ⟨Except.error ("Failed to create reminder: " ++ e),
       [NativeCmd.probe "Reminders", NativeCmd.main "createReminder"]⟩
    | Except.ok r =>
      if jsTruthy r && strStartsWith r "SUCCESS:" then
        ⟨Except.ok
          { name := name,
            id := "created-reminder-id",
            body := notes.getD "",
            completed := false,
            dueDate := jsOrNull dueDate,
            listName := strDrop r 8 },
         [NativeCmd.probe "Reminders", NativeCmd.main "createReminder"]⟩
      else
        ⟨Except.error ("Failed to create reminder: Failed to create reminder: " ++ r),
         [NativeCmd.probe "Reminders", NativeCmd.main "createReminder"]⟩

/-- Model of `getRemindersFromListById`: probe, dispatch of a script that returns a
`"SUCCESS:…"` marker without data; the TypeScript returns `[]` on every
path. -/
def getRemindersFromListById (probeOk : Bool) (reply : Except String String)
    (listId : String) : OpRun (List Reminder) :=
  let _ := listId
  let accessResult := requestRemindersAccess probeOk
  if !accessResult.hasAccess then
    ⟨[], [NativeCmd.probe "Reminders"]⟩
  else
    match reply with
    | Except.error _ =>
      ⟨[], [NativeCmd.probe "Reminders", NativeCmd.main "getRemindersFromListById"]⟩
    | Except.ok _ =>
      ⟨[], [NativeCmd.probe "Reminders", NativeCmd.main "getRemindersFromListById"]⟩

/-! ## Contact resolver phone normalization -/

/-- Modelled from the spec: the contacts module (`utils/contacts.ts`) is not
part of the sources provided, only its tests and callers are.  Per §3 of the
spec, `canonicalDigits` is "the digits-only form with country-code/punctuation
variance collapsed": every non-digit character is removed (country-code
variance is handled downstream by the suffix-equivalence rule, not by
normalization itself). -/
def canonicalDigits (x : String) : String :=
  String.mk (x.toList.filter Char.isDigit)

/-! ## Claim theorems -/

/-- C2: for every access probe (Mail, Notes, Calendar, Reminders) and every
probe outcome, an `AccessCheckResult` with `hasAccess = false` carries a
non-empty message that names the application and contains the
permission-error marker substring "access". -/
theorem C2_denied_message_marker (probeOk : Bool) :
    ((requestMailAccess probeOk).hasAccess = false →
      (requestMailAccess probeOk).message ≠ "" ∧
      strContains (requestMailAccess probeOk).message "Mail" = true ∧
      strContains (requestMailAccess probeOk).message "access" = true) ∧
    ((requestNotesAccess probeOk).hasAccess = false →
      (requestNotesAccess probeOk).message ≠ "" ∧
      strContains (requestNotesAccess probeOk).message "Notes" = true ∧
      strContains (requestNotesAccess probeOk).message "access" = true) ∧
    ((requestCalendarAccess probeOk).hasAccess = false →
      (requestCalendarAccess probeOk).message ≠ "" ∧
      strContains (requestCalendarAccess probeOk).message "Calendar" = true ∧
      strContains (requestCalendarAccess probeOk).message "access" = true) ∧
    ((requestRemindersAccess probeOk).hasAccess = false →
      (requestRemindersAccess probeOk).message ≠ "" ∧
      strContains (requestRemindersAccess probeOk).message "Reminders" = true ∧
      strContains (requestRemindersAccess probeOk).message "access" = true) := by
  cases probeOk <;>
    refine ⟨fun h => ?_, fun h => ?_, fun h => ?_, fun h => ?_⟩ <;>
    first
      | exact absurd h (by decide)
      | exact ⟨by decide, by decide, by decide⟩

/-- Witness for C2 at the concrete denied probe outcome. -/
theorem C2_denied_message_marker_witness :
    ((requestMailAccess false).message ≠ "" ∧
      strContains (requestMailAccess false).message "Mail" = true ∧
      strContains (requestMailAccess false).message "access" = true) ∧
    ((requestNotesAccess false).message ≠ "" ∧
      strContains (requestNotesAccess false).message "Notes" = true ∧
      strContains (requestNotesAccess false).message "access" = true) ∧
    ((requestCalendarAccess false).message ≠ "" ∧
      strContains (requestCalendarAccess false).message "Calendar" = true ∧
      strContains (requestCalendarAccess false).message "access" = true) ∧
    ((requestRemindersAccess false).message ≠ "" ∧
      strContains (requestRemindersAccess false).message "Reminders" = true ∧
      strContains (requestRemindersAccess false).message "access" = true) :=
  ⟨(C2_denied_message_marker false).1 (by decide),
   (C2_denied_message_marker false).2.1 (by decide),
   (C2_denied_message_marker false).2.2.1 (by decide),
   (C2_denied_message_marker false).2.2.2 (by decide)⟩

/-- C1 counterexample: the probe reports `hasAccess = false`, yet
`getUnreadMails` returns the successful empty list — the thrown access error
is caught by the enclosing `catch` of the function itself — instead of surfacing an explicit
failure (its return type has no failure channel at all).  The same happens
for `getAllNotes`.  This refutes the claim that every operation surfaces an
explicit failure on a denied probe. -/
theorem C1_counterexample :
    (requestMailAccess false).hasAccess = false ∧
    (getUnreadMails false (Except.error "probe script failed")).result = [] ∧
    (requestNotesAccess false).hasAccess = false ∧
    (getAllNotes false (Except.error "probe script failed")).result = [] :=
  ⟨rfl, rfl, rfl, rfl⟩

/-- C1 amended: when the access probe reports `hasAccess = false`, the
structured-result operations (`createNote`, `getNotesFromFolder`,
`createEvent`) return `success = false` carrying the probe message, and
`sendMail` and `createReminder` throw an error carrying the probe message —
but every read/list operation swallows the failure and returns a successful
empty collection. -/
theorem C1_amended_denied_behaviour
    (mailR notesR calR remR : Except String String)
    (notesLR : Except String (List NoteRecord))
    (calLR : Except String (List EventRecord))
    (remLR : Except String (List ReminderList))
    (evU : Except String Unit)
    (dateToISO : String → Option String) (parseDate : String → Option Int)
    (nowStr term title body fname toAddr subj name listName listId sd ed : String)
    (limit : Nat) (fromDate toDate : Option String) :
    (getUnreadMails false mailR limit).result = [] ∧
    (searchMails false mailR term limit).result = [] ∧
    (getAllNotes false notesLR).result = [] ∧
    (findNote false notesLR term).result = [] ∧
    (getEvents false calLR dateToISO nowStr limit fromDate toDate).result = [] ∧
    (searchEvents false evU dateToISO nowStr term limit fromDate toDate).result = [] ∧
    (getAllLists false remLR).result = [] ∧
    (getAllReminders false remR (some listName)).result = [] ∧
    (searchReminders false remR term).result = [] ∧
    (getRemindersFromListById false remR listId).result = [] ∧
    (createNote false notesR title body fname).result =
      { success := false, message := some notesDeniedMsg } ∧
    (getNotesFromFolder false notesR fname).result =
      { success := false, message := some notesDeniedMsg } ∧
    (createEvent false parseDate calR title sd ed).result =
      { success := false, message := calendarDeniedMsg } ∧
    (sendMail false mailR toAddr subj body).result =
      Except.error ("Error sending email: " ++ mailDeniedMsg) ∧
    (createReminder false remR name).result =
      Except.error ("Failed to create reminder: " ++ remindersDeniedMsg) :=
  ⟨rfl, rfl, rfl, rfl, rfl, rfl, rfl, rfl, rfl, rfl, rfl, rfl, rfl, rfl, rfl⟩

/-- C4: every modelled application-level operation dispatches the access probe
as its first native command on every input, and whenever the probe fails the
probe is the only native command of the call — the real
AppleScript command is never dispatched. -/
theorem C4_probe_gates_dispatch (pk : Bool)
    (mailR notesR calR remR : Except String String)
    (notesLR : Except String (List NoteRecord))
    (calLR : Except String (List EventRecord))
    (remLR : Except String (List ReminderList))
    (evU : Except String Unit)
    (dateToISO : String → Option String) (parseDate : String → Option Int)
    (nowStr term title body fname toAddr subj name listName listId sd ed : String)
    (limit : Nat) (fromDate toDate : Option String)
    (loc ns : Option String) (allDay : Bool) (calNm : Option String)
    (notesOpt dueOpt : Option String) :
    ((getUnreadMails pk mailR limit).trace.head? = some (NativeCmd.probe "Mail") ∧
     (searchMails pk mailR term limit).trace.head? = some (NativeCmd.probe "Mail") ∧
     (sendMail pk mailR toAddr subj body).trace.head? = some (NativeCmd.probe "Mail") ∧
     (getAllNotes pk notesLR).trace.head? = some (NativeCmd.probe "Notes") ∧
     (findNote pk notesLR term).trace.head? = some (NativeCmd.probe "Notes") ∧
     (createNote pk notesR title body fname).trace.head? = some (NativeCmd.probe "Notes") ∧
     (getNotesFromFolder pk notesR fname).trace.head? = some (NativeCmd.probe "Notes") ∧
     (getEvents pk calLR dateToISO nowStr limit fromDate toDate).trace.head? =
       some (NativeCmd.probe "Calendar") ∧
     (searchEvents pk evU dateToISO nowStr term limit fromDate toDate).trace.head? =
       some (NativeCmd.probe "Calendar") ∧
     (createEvent pk parseDate calR title sd ed loc ns allDay calNm).trace.head? =
       some (NativeCmd.probe "Calendar") ∧
     (getAllLists pk remLR).trace.head? = some (NativeCmd.probe "Reminders") ∧
     (getAllReminders pk remR (some listName)).trace.head? = some (NativeCmd.probe "Reminders") ∧
     (searchReminders pk remR term).trace.head? = some (NativeCmd.probe "Reminders") ∧
     (createReminder pk remR name listName notesOpt dueOpt).trace.head? =
       some (NativeCmd.probe "Reminders") ∧
     (getRemindersFromListById pk remR listId).trace.head? =
       some (NativeCmd.probe "Reminders")) ∧
    ((getUnreadMails false mailR limit).trace = [NativeCmd.probe "Mail"] ∧
     (searchMails false mailR term limit).trace = [NativeCmd.probe "Mail"] ∧
     (sendMail false mailR toAddr subj body).trace = [NativeCmd.probe "Mail"] ∧
     (getAllNotes false notesLR).trace = [NativeCmd.probe "Notes"] ∧
     (findNote false notesLR term).trace = [NativeCmd.probe "Notes"] ∧
     (createNote false notesR title body fname).trace = [NativeCmd.probe "Notes"] ∧
     (getNotesFromFolder false notesR fname).trace = [NativeCmd.probe "Notes"] ∧
     (getEvents false calLR dateToISO nowStr limit fromDate toDate).trace =
       [NativeCmd.probe "Calendar"] ∧
     (searchEvents false evU dateToISO nowStr term limit fromDate toDate).trace =
       [NativeCmd.probe "Calendar"] ∧
     (createEvent false parseDate calR title sd ed loc ns allDay calNm).trace =
       [NativeCmd.probe "Calendar"] ∧
     (getAllLists false remLR).trace = [NativeCmd.probe "Reminders"] ∧
     (getAllReminders false remR (some listName)).trace = [NativeCmd.probe "Reminders"] ∧
     (searchReminders false remR term).trace = [NativeCmd.probe "Reminders"] ∧
     (createReminder false remR name listName notesOpt dueOpt).trace =
       [NativeCmd.probe "Reminders"] ∧
     (getRemindersFromListById false remR listId).trace = [NativeCmd.probe "Reminders"]) := by
  constructor
  · refine ⟨?_, ?_, ?_, ?_, ?_, ?_, ?_, ?_, ?_, ?_, ?_, ?_, ?_, ?_, ?_⟩ <;>
      (simp only [getUnreadMails, searchMails, sendMail, getAllNotes, findNote,
          createNote, getNotesFromFolder, getEvents, searchEvents, createEvent,
          getAllLists, getAllReminders, searchReminders, createReminder,
          getRemindersFromListById]
       repeat' split) <;>
      rfl
  · exact ⟨rfl, rfl, rfl, rfl, rfl, rfl, rfl, rfl, rfl, rfl, rfl, rfl, rfl, rfl, rfl⟩

/-- C3 counterexample: with access granted and an empty search term,
`searchMails` does return the empty result, but its trace is not empty — the
access probe was dispatched before the input check, so the number of native
commands issued is one, not zero as the claim requires. -/
theorem C3_counterexample :
    (searchMails true (Except.ok "SUCCESS:0") "").result = [] ∧
    (searchMails true (Except.ok "SUCCESS:0") "").trace = [NativeCmd.probe "Mail"] ∧
    (searchMails true (Except.ok "SUCCESS:0") "").trace ≠ [] :=
  ⟨rfl, rfl, by decide⟩

/-- C3 amended: for the operations that validate their textual argument —
`searchMails`, `findNote` and `searchReminders` for the search term,
`createNote` for the title, `createReminder` for the name, `sendMail` for the
recipient — an empty or whitespace-only argument is rejected (an empty
result, a `success = false` result, or a thrown error) before the real native
command of the operation, but after the access probe: the probe is the one
native command issued during such a call.  `searchEvents` performs no such
validation: even with a blank search term it dispatches its real command
after the probe (returning the empty list regardless). -/
theorem C3_blank_input_rejected_after_probe (pk : Bool)
    (mailR notesR remR : Except String String)
    (notesLR : Except String (List NoteRecord))
    (evU : Except String Unit)
    (dti : String → Option String) (nowStr : String)
    (fromDate toDate : Option String)
    (term title name toAddr subj body listName : String) (limit : Nat)
    (notesOpt dueOpt : Option String)
    (hterm : jsTrim term = "") (htitle : jsTrim title = "")
    (hname : jsTrim name = "") (hto : jsTrim toAddr = "") :
    ((searchMails pk mailR term limit).result = [] ∧
     (searchMails pk mailR term limit).trace = [NativeCmd.probe "Mail"]) ∧
    ((findNote pk notesLR term).result = [] ∧
     (findNote pk notesLR term).trace = [NativeCmd.probe "Notes"]) ∧
    ((searchReminders pk remR term).result = [] ∧
     (searchReminders pk remR term).trace = [NativeCmd.probe "Reminders"]) ∧
    ((createNote pk notesR title body).result.success = false ∧
     (createNote pk notesR title body).trace = [NativeCmd.probe "Notes"]) ∧
    (exceptIsErr (createReminder pk remR name listName notesOpt dueOpt).result = true ∧
     (createReminder pk remR name listName notesOpt dueOpt).trace =
       [NativeCmd.probe "Reminders"]) ∧
    (exceptIsErr (sendMail pk mailR toAddr subj body).result = true ∧
     (sendMail pk mailR toAddr subj body).trace = [NativeCmd.probe "Mail"]) ∧
    ((searchEvents true evU dti nowStr term limit fromDate toDate).result = [] ∧
     (searchEvents true evU dti nowStr term limit fromDate toDate).trace =
       [NativeCmd.probe "Calendar", NativeCmd.main "searchEvents"]) := by
  refine ⟨⟨?_, ?_⟩, ⟨?_, ?_⟩, ⟨?_, ?_⟩, ⟨?_, ?_⟩, ⟨?_, ?_⟩, ⟨?_, ?_⟩, ⟨?_, ?_⟩⟩ <;>
    (simp only [searchMails, findNote, searchReminders, createNote,
        createReminder, sendMail, searchEvents,
        requestCalendarAccess, checkCalendarAccess]
     repeat' split) <;>
    first | rfl | simp_all [List.mapM, List.mapM.loop]

/-- Witness for the amended C3 theorem at concrete blank inputs. -/
theorem C3_blank_input_witness :
    jsTrim "   " = "" ∧
    (((searchMails true (Except.ok "SUCCESS:0") "   " 10).result = [] ∧
      (searchMails true (Except.ok "SUCCESS:0") "   " 10).trace = [NativeCmd.probe "Mail"]) ∧
     ((findNote true (Except.ok []) "   ").result = [] ∧
      (findNote true (Except.ok []) "   ").trace = [NativeCmd.probe "Notes"]) ∧
     ((searchReminders true (Except.ok "SUCCESS:x") "   ").result = [] ∧
      (searchReminders true (Except.ok "SUCCESS:x") "   ").trace = [NativeCmd.probe "Reminders"]) ∧
     ((createNote true (Except.ok "SUCCESS:Notes:true") "   " "body").result.success = false ∧
      (createNote true (Except.ok "SUCCESS:Notes:true") "   " "body").trace =
        [NativeCmd.probe "Notes"]) ∧
     (exceptIsErr (createReminder true (Except.ok "SUCCESS:Reminders") "   " "Reminders"
          none none).result = true ∧
      (createReminder true (Except.ok "SUCCESS:Reminders") "   " "Reminders" none none).trace =
        [NativeCmd.probe "Reminders"]) ∧
     (exceptIsErr (sendMail true (Except.ok "SUCCESS") "   " "Subject" "Body").result = true ∧
      (sendMail true (Except.ok "SUCCESS") "   " "Subject" "Body").trace =
        [NativeCmd.probe "Mail"]) ∧
     ((searchEvents true (Except.ok ()) (fun _ => none) "0" "   " 10 none none).result = [] ∧
      (searchEvents true (Except.ok ()) (fun _ => none) "0" "   " 10 none none).trace =
        [NativeCmd.probe "Calendar", NativeCmd.main "searchEvents"])) :=
  ⟨by decide,
   C3_blank_input_rejected_after_probe true (Except.ok "SUCCESS:0")
     (Except.ok "SUCCESS:Notes:true") (Except.ok "SUCCESS:x") (Except.ok [])
     (Except.ok ()) (fun _ => none) "0" none none
     "   " "   " "   " "   " "Subject" "body" "Reminders" 10 none none
     (by decide) (by decide) (by decide) (by decide)⟩

/-- C5 counterexample: `"garbage"` carries neither sentinel, yet
`getNotesFromFolder` classifies it as a success with an empty notes list, not
as a failure; and `sendMail` handed a non-sentinel reply throws to its caller
instead of classifying without throwing. -/
theorem C5_counterexample :
    strStartsWith "garbage" "SUCCESS:" = false ∧
    strStartsWith "garbage" "ERROR:" = false ∧
    (getNotesFromFolder true (Except.ok "garbage") "Projects").result =
      { success := true, notes := some [] } ∧
    exceptIsErr (sendMail true (Except.ok "garbage") "a@b.c" "Hi" "Body").result = true :=
  ⟨by decide, by decide, by decide, by decide⟩

/-- C5 amended: `createNote` classifies any reply without the `SUCCESS:`
sentinel as a failure without throwing, and `getUnreadMails` returns an empty
list for every reply shape; but `getNotesFromFolder` classifies a reply with
neither sentinel as a success with an empty notes list, and `sendMail` throws
an error to its caller when the reply is not the `SUCCESS` sentinel. -/
theorem C5_sentinel_classification (s1 s2 s3 s4 title body fname toAddr subj mbody : String)
    (limit : Nat) :
    (strStartsWith s1 "SUCCESS:" = false →
      (createNote true (Except.ok s1) title body).result.success = false) ∧
    (strStartsWith s2 "SUCCESS:" = false → strStartsWith s2 "ERROR:" = false →
      (getNotesFromFolder true (Except.ok s2) fname).result =
        { success := true, notes := some [] }) ∧
    (getUnreadMails true (Except.ok s3) limit).result = [] ∧
    ((s4 == "SUCCESS") = false →
      exceptIsErr (sendMail true (Except.ok s4) toAddr subj mbody).result = true) := by
  refine ⟨fun h1 => ?_, fun h2a h2b => ?_, ?_, fun h4 => ?_⟩ <;>
    (simp only [createNote, getNotesFromFolder, getUnreadMails, sendMail,
        requestNotesAccess, checkNotesAccess, requestMailAccess, checkMailAccess]
     repeat' split) <;>
    first | rfl | simp_all

/-- Witness for the amended C5 theorem: `createNote` fails on the `ERROR:x`
reply, `getNotesFromFolder` succeeds on the sentinel-free `garbage` reply,
`getUnreadMails` returns `[]` on a well-formed sentinel, and `sendMail`
throws on the `SUCCESS:0` reply (which is not the bare `SUCCESS`
sentinel). -/
theorem C5_sentinel_classification_witness :
    strStartsWith "ERROR:x" "SUCCESS:" = false ∧
    (createNote true (Except.ok "ERROR:x") "Title" "Body").result.success = false ∧
    strStartsWith "garbage" "SUCCESS:" = false ∧
    strStartsWith "garbage" "ERROR:" = false ∧
    (getNotesFromFolder true (Except.ok "garbage") "Projects").result =
      { success := true, notes := some [] } ∧
    (getUnreadMails true (Except.ok "SUCCESS:5") 10).result = [] ∧
    ("SUCCESS:0" == "SUCCESS") = false ∧
    exceptIsErr (sendMail true (Except.ok "SUCCESS:0") "a@b.c" "Hi" "Body").result = true :=
  ⟨by decide,
   (C5_sentinel_classification "ERROR:x" "garbage" "SUCCESS:5" "SUCCESS:0"
      "Title" "Body" "Projects" "a@b.c" "Hi" "Body" 10).1 (by decide),
   by decide, by decide,
   (C5_sentinel_classification "ERROR:x" "garbage" "SUCCESS:5" "SUCCESS:0"
      "Title" "Body" "Projects" "a@b.c" "Hi" "Body" 10).2.1 (by decide) (by decide),
   (C5_sentinel_classification "ERROR:x" "garbage" "SUCCESS:5" "SUCCESS:0"
      "Title" "Body" "Projects" "a@b.c" "Hi" "Body" 10).2.2.1,
   by decide,
   (C5_sentinel_classification "ERROR:x" "garbage" "SUCCESS:5" "SUCCESS:0"
      "Title" "Body" "Projects" "a@b.c" "Hi" "Body" 10).2.2.2 (by decide)⟩

/-- C6: every read/search operation swallows a native-side error (a rejected
`runAppleScript` call, which is also how a timeout surfaces) into an empty
collection.  The result types are plain lists, mirroring the source functions
whose outer `catch` swallows every exception, so no exception reaches the
caller. -/
theorem C6_read_errors_swallowed (probeOk : Bool) (e : String)
    (term listName listId nowStr : String) (limit : Nat)
    (dateToISO : String → Option String) (fromDate toDate : Option String) :
    (getUnreadMails probeOk (Except.error e) limit).result = [] ∧
    (searchMails probeOk (Except.error e) term limit).result = [] ∧
    (getAllNotes probeOk (Except.error e)).result = [] ∧
    (findNote probeOk (Except.error e) term).result = [] ∧
    (getEvents probeOk (Except.error e) dateToISO nowStr limit fromDate toDate).result = [] ∧
    (searchEvents probeOk (Except.error e) dateToISO nowStr term limit fromDate toDate).result = [] ∧
    (getAllLists probeOk (Except.error e)).result = [] ∧
    (getAllReminders probeOk (Except.error e) (some listName)).result = [] ∧
    (searchReminders probeOk (Except.error e) term).result = [] := by
  refine ⟨?_, ?_, ?_, ?_, ?_, ?_, ?_, ?_, ?_⟩ <;>
    (simp only [getUnreadMails, searchMails, getAllNotes, findNote, getEvents,
        searchEvents, getAllLists, getAllReminders, searchReminders]
     repeat' split) <;>
    rfl

/-- C7: `canonicalDigits` normalization is idempotent.  (The contacts module
is not among the provided sources; `canonicalDigits` is modelled from the
spec as the digits-only form of the input.) -/
theorem C7_normalize_idempotent (x : String) :
    canonicalDigits (canonicalDigits x) = canonicalDigits x := by
  unfold canonicalDigits
  exact congrArg String.mk
    (List.filter_eq_self.mpr (fun a ha => List.of_mem_filter ha))

/-- C9: `createNote` with a non-empty title, access granted and a successful
native call (the script always answers with a `SUCCESS:`-prefixed sentinel,
falling back to the default location itself when the requested folder is
missing — it never fails over a missing folder) returns `success = true` with
`note.name` equal to the title and `note.content` equal to the trimmed body;
and when the note went to the default location (`"SUCCESS:Notes:true"`), it
reports `usedDefaultFolder = true` with `folderName = "Notes"`. -/
theorem C9_createNote_success_shape (title body fname s : String)
    (h1 : jsTrim title ≠ "") (h2 : strStartsWith s "SUCCESS:" = true) :
    ((createNote true (Except.ok s) title body fname).result.success = true ∧
     (createNote true (Except.ok s) title body fname).result.note =
       some { name := title, content := jsTrim body }) ∧
    ((createNote true (Except.ok "SUCCESS:Notes:true") title body fname).result.usedDefaultFolder =
       some true ∧
     (createNote true (Except.ok "SUCCESS:Notes:true") title body fname).result.folderName =
       some "Notes") := by
  have hs : s ≠ "" := by
    rintro rfl
    exact absurd h2 (by decide)
  have ht : title ≠ "" := by
    rintro rfl
    exact h1 rfl
  have hnotes : strStartsWith "SUCCESS:Notes:true" "SUCCESS:" = true := by decide
  refine ⟨⟨?_, ?_⟩, ⟨?_, ?_⟩⟩ <;>
    (simp only [createNote, requestNotesAccess, checkNotesAccess]
     repeat' split) <;>
    first | rfl | decide | simp_all [jsTruthy]

/-- Witness for C9 at a concrete title, body and sentinel reply. -/
theorem C9_createNote_success_witness :
    jsTrim "Claude Test Note" ≠ "" ∧
    strStartsWith "SUCCESS:Claude:false" "SUCCESS:" = true ∧
    (((createNote true (Except.ok "SUCCESS:Claude:false") "Claude Test Note"
         " hello world " "Claude").result.success = true ∧
      (createNote true (Except.ok "SUCCESS:Claude:false") "Claude Test Note"
         " hello world " "Claude").result.note =
        some { name := "Claude Test Note", content := jsTrim " hello world " }) ∧
     ((createNote true (Except.ok "SUCCESS:Notes:true") "Claude Test Note"
          " hello world " "Claude").result.usedDefaultFolder = some true ∧
      (createNote true (Except.ok "SUCCESS:Notes:true") "Claude Test Note"
          " hello world " "Claude").result.folderName = some "Notes")) :=
  ⟨by decide, by decide,
   C9_createNote_success_shape "Claude Test Note" " hello world " "Claude"
     "SUCCESS:Claude:false" (by decide) (by decide)⟩

/-- C10: `createEvent` rejects a blank title, a missing date, an unparseable
date, or an end date not strictly after the start date with a
`success = false` result carrying a non-empty message, and in all those cases
the native event-creation command is never dispatched (the trace holds only
the access probe). -/
theorem C10_createEvent_validation (parseDate : String → Option Int)
    (reply : Except String String) (title sd ed : String)
    (loc ns : Option String) (allDay : Bool) (calNm : Option String)
    (h : jsTrim title = "" ∨ sd = "" ∨ ed = "" ∨ parseDate sd = none ∨
         parseDate ed = none ∨
         (∃ a b, parseDate sd = some a ∧ parseDate ed = some b ∧ b ≤ a)) :
    (createEvent true parseDate reply title sd ed loc ns allDay calNm).result.success = false ∧
    (createEvent true parseDate reply title sd ed loc ns allDay calNm).result.message ≠ "" ∧
    (createEvent true parseDate reply title sd ed loc ns allDay calNm).trace =
      [NativeCmd.probe "Calendar"] := by
  refine ⟨?_, ?_, ?_⟩ <;>
    (simp only [createEvent, requestCalendarAccess, checkCalendarAccess]
     repeat' split) <;>
    first
      | rfl
      | decide
      | (rcases h with h | h | h | h | h | ⟨a, b, ha, hb, hab⟩ <;>
          simp_all <;> omega)

/-- Witness for C10 at a concrete unparseable date. -/
theorem C10_createEvent_validation_witness :
    ((fun _ => (none : Option Int)) "2024-13-99" = none) ∧
    ((createEvent true (fun _ => (none : Option Int)) (Except.ok "uid") "Meeting"
        "2024-13-99" "2024-13-99" none none false none).result.success = false ∧
     (createEvent true (fun _ => (none : Option Int)) (Except.ok "uid") "Meeting"
        "2024-13-99" "2024-13-99" none none false none).result.message ≠ "" ∧
     (createEvent true (fun _ => (none : Option Int)) (Except.ok "uid") "Meeting"
        "2024-13-99" "2024-13-99" none none false none).trace =
       [NativeCmd.probe "Calendar"]) :=
  ⟨rfl,
   C10_createEvent_validation (fun _ => none) (Except.ok "uid") "Meeting"
     "2024-13-99" "2024-13-99" none none false none
     (Or.inr (Or.inr (Or.inr (Or.inl rfl))))⟩

/-- C8: `searchMails`, `getUnreadMails`, `searchReminders`, `getAllReminders`,
`getRemindersFromListById` and `searchEvents` return the empty list on every
execution path, including successful native replies (their scripts return
only counters, markers, or an empty list; the TypeScript never reconstructs
any item). -/
theorem C8_stub_operations_return_empty (probeOk : Bool)
    (reply : Except String String) (evReply : Except String Unit)
    (term listName listId nowStr : String) (limit : Nat)
    (dateToISO : String → Option String) (fromDate toDate : Option String) :
    (searchMails probeOk reply term limit).result = [] ∧
    (getUnreadMails probeOk reply limit).result = [] ∧
    (searchReminders probeOk reply term).result = [] ∧
    (getAllReminders probeOk reply (some listName)).result = [] ∧
    (getRemindersFromListById probeOk reply listId).result = [] ∧
    (searchEvents probeOk evReply dateToISO nowStr term limit fromDate toDate).result = [] := by
  refine ⟨?_, ?_, ?_, ?_, ?_, ?_⟩ <;>
    (simp only [searchMails, getUnreadMails, searchReminders, getAllReminders,
        getRemindersFromListById, searchEvents]
     repeat' split) <;>
    first
      | rfl
      | simp_all [List.mapM, List.mapM.loop]
